import Mathlib

/-!
Verification of the IMT-prediction training pipeline (`predict_imt.py`).

The development shallowly embeds the pipeline's pure logic:

* tensors are lists of rationals (the framework's floating-point containers
  are modelled by `ℚ`; the framework primitive `binary_crossentropy` is an
  abstract per-element function parameter, since only the weighting around it
  is defined by this repository);
* the Python `dict` of target columns is an insertion-ordered association
  list `List (String × TargetSpec)`;
* image I/O (`cv2.imread`, `cv2.resize`) and the neural network itself are
  abstract function parameters; a grayscale image is a matrix of bytes
  (`Fin 256`), and the network consumes a batch (`List NNInput`) and returns
  a list of output heads;
* module-level configuration reads (`config.FORCE_GPU`, `config.PREDICT_PLAQUE`)
  become explicit boolean parameters;
* Python runtime errors (unbound local, `IndexError`, `raise`) are modelled
  with `Option` / `Except`.
-/

/-- One entry of the `target_columns` dictionary: an output head with its
enablement flag, loss identifier and loss weight. -/
structure TargetSpec where
  predict : Bool
  loss : String
  weight : ℚ
deriving Repr, DecidableEq

/-- Names of the target columns marked `predict: true`, in declaration
order (Python `dict` iteration order is insertion order). -/
def enabledNames (target_columns : List (String × TargetSpec)) : List String :=
  (target_columns.filter (fun kv => kv.2.predict)).map Prod.fst

/-- Number of enabled output heads. -/
def enabledCount (target_columns : List (String × TargetSpec)) : ℕ :=
  (enabledNames target_columns).length

/-- Embedding of `weighted_bce` (predict_imt.py lines 23-33):
`weights = (y_true * 10.) + 1.`, `bce = K.binary_crossentropy(y_true, y_pred)`,
result `K.mean(bce * weights)`.  Tensors are flattened to lists; `K.mean` is
the sum of all elements divided by their number; the framework primitive
`binary_crossentropy` is the abstract parameter `bce`, applied elementwise. -/
def weighted_bce (bce : ℚ → ℚ → ℚ) (y_true y_pred : List ℚ) : ℚ :=
  let weights := y_true.map (fun t => t * 10 + 1)
  let bceVals := List.zipWith bce y_true y_pred
  let weightedVals := List.zipWith (fun a b => a * b) bceVals weights
  weightedVals.sum / weightedVals.length

/-- Embedding of the plaque-label derivation (predict_imt.py line 192):
`df['gt_plaque'] = df['gt_imt_max'].apply(lambda x: 1 if x >= 1.5 else 0)`. -/
def gt_plaque_of (x : ℚ) : ℕ :=
  if 1.5 ≤ x then 1 else 0

/-- The derived `gt_plaque` column: the threshold map applied to every row of
the `gt_imt_max` column. -/
def derive_gt_plaque (gt_imt_max_col : List ℚ) : List ℕ :=
  gt_imt_max_col.map gt_plaque_of

/-- The two errors `train_imt_predictor` raises itself (predict_imt.py lines
194-208): `SystemError('GPU device not found')` and `NotImplementedError`. -/
inductive FatalError where
  | gpuNotFound
  | notImplementedInput
deriving Repr, DecidableEq

/-- Embedding of the GPU check (predict_imt.py lines 194-197): under
`config.FORCE_GPU`, a device name other than `/device:GPU:0` raises
`SystemError('GPU device not found')`. -/
def gpu_check (force_gpu : Bool) (device_name : String) : Except FatalError Unit :=
  if force_gpu then
    if device_name ≠ "/device:GPU:0" then Except.error FatalError.gpuNotFound
    else Except.ok ()
  else Except.ok ()

/-- Embedding of the input-modality dispatch (predict_imt.py lines 201-208):
`img` selects `complete_path`, `mask` selects `mask_path`, `img_and_mask`
keeps the marker string itself, anything else raises `NotImplementedError`. -/
def resolve_input_column (input_type : String) : Except FatalError String :=
  if input_type = "img" then Except.ok "complete_path"
  else if input_type = "mask" then Except.ok "mask_path"
  else if input_type = "img_and_mask" then Except.ok input_type
  else Except.error FatalError.notImplementedInput

/-- The orchestrator's own fatal-error surface: the GPU check followed by the
modality dispatch, in source order. -/
def orchestrator_checks (force_gpu : Bool) (device_name input_type : String) :
    Except FatalError String :=
  match gpu_check force_gpu device_name with
  | Except.error e => Except.error e
  | Except.ok _ => resolve_input_column input_type

/-- Embedding of the per-row input-path selection of
`predict_complete_dataframe` (predict_imt.py lines 115-116): the image path is
dropped only when the input column is `mask_path`, the mask path only when it
is `complete_path`; the marker `img_and_mask` keeps both. -/
def pathSelection (input_column complete_path mask_path : String) :
    Option String × Option String :=
  (if input_column = "mask_path" then none else some complete_path,
   if input_column = "complete_path" then none else some mask_path)

lemma zipWith_mul_weights (bce : ℚ → ℚ → ℚ) (y : List ℚ) :
    ∀ p : List ℚ,
      List.zipWith (fun a b => a * b) (List.zipWith bce y p) (y.map (fun t => t * 10 + 1))
        = List.zipWith (fun t o => bce t o * (10 * t + 1)) y p := by
  induction y with
  | nil => intro p; simp
  | cons a y ih =>
    intro p
    cases p with
    | nil => simp
    | cons b p =>
      simp only [List.map_cons, List.zipWith_cons_cons]
      rw [ih p]
      congr 1
      ring

/-- C1: `weighted_bce` is the mean over all elements of the per-element binary
cross-entropy scaled by `10 * label + 1`; for the same predicted probability a
label-1 element contributes exactly `11` times the unweighted cross-entropy
term and a label-0 element exactly `1` times it. -/
theorem weighted_bce_spec (bce : ℚ → ℚ → ℚ) (y_true y_pred : List ℚ) (q : ℚ)
    (hlen : y_true.length = y_pred.length)
    (hlab : ∀ t ∈ y_true, t = 0 ∨ t = 1)
    (hprob : ∀ o ∈ y_pred, 0 ≤ o ∧ o ≤ 1)
    (hq : 0 ≤ q ∧ q ≤ 1) :
    weighted_bce bce y_true y_pred
        = (List.zipWith (fun t o => bce t o * (10 * t + 1)) y_true y_pred).sum
            / (y_true.length : ℚ) ∧
    weighted_bce bce [1] [q] = 11 * bce 1 q ∧
    weighted_bce bce [0] [q] = 1 * bce 0 q := by
  refine ⟨?_, ?_, ?_⟩
  · simp only [weighted_bce]
    rw [zipWith_mul_weights]
    rw [List.length_zipWith, hlen, min_self]
  · simp only [weighted_bce]
    rw [zipWith_mul_weights]
    simp
    ring
  · simp only [weighted_bce]
    rw [zipWith_mul_weights]
    simp

theorem weighted_bce_spec_witness :
    (([(0:ℚ), 1].length = [(1:ℚ), 0].length) ∧ (∀ t ∈ [(0:ℚ), 1], t = 0 ∨ t = 1) ∧
      (∀ o ∈ [(1:ℚ), 0], 0 ≤ o ∧ o ≤ 1) ∧ ((0:ℚ) ≤ 1 ∧ (1:ℚ) ≤ 1)) ∧
    (weighted_bce (fun t o => t + o) [0, 1] [1, 0]
        = (List.zipWith (fun t o => (fun t o => t + o) t o * (10 * t + 1)) [(0:ℚ), 1] [1, 0]).sum
            / (([(0:ℚ), 1].length : ℚ)) ∧
      weighted_bce (fun t o => t + o) [1] [1] = 11 * (fun t o => t + o) 1 1 ∧
      weighted_bce (fun t o => t + o) [0] [1] = 1 * (fun t o => t + o) 0 1) :=
  ⟨⟨rfl, by norm_num, by norm_num, by norm_num⟩,
    weighted_bce_spec (fun t o => t + o) [0, 1] [1, 0] 1 rfl (by norm_num) (by norm_num)
      (by norm_num)⟩

/-- C6: for every row, the derived `gt_plaque` label is `1` exactly when the
row's `gt_imt_max` value is at least the clinical threshold `1.5`, and `0`
otherwise. -/
theorem gt_plaque_threshold (xs : List ℚ) (i : ℕ) (x : ℚ)
    (hx : xs[i]? = some x) :
    (derive_gt_plaque xs)[i]? = some (gt_plaque_of x) ∧
    (1.5 ≤ x → (derive_gt_plaque xs)[i]? = some 1) ∧
    (x < 1.5 → (derive_gt_plaque xs)[i]? = some 0) := by
  have hmap : (derive_gt_plaque xs)[i]? = some (gt_plaque_of x) := by
    simp [derive_gt_plaque, List.getElem?_map, hx]
  refine ⟨hmap, ?_, ?_⟩
  · intro h
    rw [hmap]
    simp [gt_plaque_of, h]
  · intro h
    rw [hmap]
    simp [gt_plaque_of, not_le.mpr h]

theorem gt_plaque_threshold_witness :
    ([(1.6:ℚ), 1.2][0]? = some (1.6:ℚ)) ∧
    ((derive_gt_plaque [1.6, 1.2])[0]? = some (gt_plaque_of 1.6) ∧
      ((1.5:ℚ) ≤ 1.6 → (derive_gt_plaque [1.6, 1.2])[0]? = some 1) ∧
      ((1.6:ℚ) < 1.5 → (derive_gt_plaque [1.6, 1.2])[0]? = some 0)) :=
  ⟨by simp, gt_plaque_threshold [1.6, 1.2] 0 1.6 (by simp)⟩

lemma orchestrator_checks_eq (force_gpu : Bool) (device_name input_type : String) :
    orchestrator_checks force_gpu device_name input_type
      = if force_gpu = true ∧ device_name ≠ "/device:GPU:0"
          then Except.error FatalError.gpuNotFound
          else resolve_input_column input_type := by
  cases force_gpu with
  | false => simp [orchestrator_checks, gpu_check]
  | true =>
    by_cases hd : device_name = "/device:GPU:0" <;>
      simp [orchestrator_checks, gpu_check, hd]

/-- C5: the orchestrator raises exactly two fatal errors — GPU required but
absent, and an unrecognized input modality; `img` selects the image-path
column, `mask` the mask-path column, and `img_and_mask` keeps both paths, and
when the GPU requirement is met no orchestrator-raised error occurs on those
paths. -/
theorem orchestrator_fatal_errors (force_gpu : Bool) (device_name input_type : String) :
    ((∃ c, orchestrator_checks force_gpu device_name input_type = Except.ok c)
        ↔ ((force_gpu = true → device_name = "/device:GPU:0")
            ∧ (input_type = "img" ∨ input_type = "mask" ∨ input_type = "img_and_mask"))) ∧
    (force_gpu = true → device_name ≠ "/device:GPU:0" →
        orchestrator_checks force_gpu device_name input_type
          = Except.error FatalError.gpuNotFound) ∧
    ((force_gpu = true → device_name = "/device:GPU:0") →
        input_type ≠ "img" → input_type ≠ "mask" → input_type ≠ "img_and_mask" →
        orchestrator_checks force_gpu device_name input_type
          = Except.error FatalError.notImplementedInput) ∧
    ((force_gpu = true → device_name = "/device:GPU:0") →
        (orchestrator_checks force_gpu device_name "img" = Except.ok "complete_path"
          ∧ orchestrator_checks force_gpu device_name "mask" = Except.ok "mask_path"
          ∧ orchestrator_checks force_gpu device_name "img_and_mask"
              = Except.ok "img_and_mask")) ∧
    (∀ c m : String,
        pathSelection "complete_path" c m = (some c, none)
        ∧ pathSelection "mask_path" c m = (none, some m)
        ∧ pathSelection "img_and_mask" c m = (some c, some m)) := by
  have hpass : ∀ (h : force_gpu = true → device_name = "/device:GPU:0") (it : String),
      orchestrator_checks force_gpu device_name it = resolve_input_column it := by
    intro h it
    rw [orchestrator_checks_eq]
    cases force_gpu with
    | false => simp
    | true => simp [h rfl]
  refine ⟨?_, ?_, ?_, ?_, ?_⟩
  · constructor
    · rintro ⟨c, hc⟩
      by_cases hgpu : force_gpu = true ∧ device_name ≠ "/device:GPU:0"
      · rw [orchestrator_checks_eq, if_pos hgpu] at hc
        exact absurd hc (by simp)
      · have h : force_gpu = true → device_name = "/device:GPU:0" := by
          intro hf
          by_contra hd
          exact hgpu ⟨hf, hd⟩
        refine ⟨h, ?_⟩
        rw [hpass h] at hc
        by_contra hin
        push_neg at hin
        obtain ⟨h1, h2, h3⟩ := hin
        rw [resolve_input_column, if_neg h1, if_neg h2, if_neg h3] at hc
        exact absurd hc (by simp)
    · rintro ⟨h, hin⟩
      rw [hpass h]
      rcases hin with h1 | h1 | h1 <;> subst h1
      · exact ⟨"complete_path", rfl⟩
      · exact ⟨"mask_path", rfl⟩
      · exact ⟨"img_and_mask", rfl⟩
  · intro hf hd
    rw [orchestrator_checks_eq, if_pos ⟨hf, hd⟩]
  · intro h h1 h2 h3
    rw [hpass h, resolve_input_column, if_neg h1, if_neg h2, if_neg h3]
  · intro h
    exact ⟨by rw [hpass h]; rfl, by rw [hpass h]; rfl, by rw [hpass h]; rfl⟩
  · intro c m
    exact ⟨rfl, rfl, rfl⟩

theorem orchestrator_fatal_errors_witness :
    orchestrator_checks true "" "img" = Except.error FatalError.gpuNotFound ∧
    orchestrator_checks false "" "bogus" = Except.error FatalError.notImplementedInput ∧
    orchestrator_checks false "" "img" = Except.ok "complete_path" ∧
    orchestrator_checks false "" "mask" = Except.ok "mask_path" ∧
    orchestrator_checks false "" "img_and_mask" = Except.ok "img_and_mask" ∧
    pathSelection "img_and_mask" "c" "m" = (some "c", some "m") :=
  ⟨(orchestrator_fatal_errors true "" "img").2.1 rfl (by decide),
   (orchestrator_fatal_errors false "" "bogus").2.2.1 (by decide) (by decide) (by decide)
     (by decide),
   ((orchestrator_fatal_errors false "" "img").2.2.2.1 (by decide)).1,
   ((orchestrator_fatal_errors false "" "mask").2.2.2.1 (by decide)).2.1,
   ((orchestrator_fatal_errors false "" "img_and_mask").2.2.2.1 (by decide)).2.2,
   ((orchestrator_fatal_errors false "" "x").2.2.2.2 "c" "m").2.2⟩

/-- Model of Python `str.replace(old, new)`: scans left to right, replacing
every non-overlapping occurrence of `pattern` by `repl`.  The fuel argument
(instantiated with the string length) makes the recursion structural; one
unit of fuel is spent per emitted position, and at least one character is
consumed per step, so full fuel computes the whole replacement. -/
def replaceAllAux (pattern repl : List Char) : ℕ → List Char → List Char
  | 0, s => s
  | _ + 1, [] => []
  | fuel + 1, c :: rest =>
    if pattern.isPrefixOf (c :: rest) then
      repl ++ replaceAllAux pattern repl fuel ((c :: rest).drop pattern.length)
    else
      c :: replaceAllAux pattern repl fuel rest

/-- Python `s.replace(pattern, repl)` on `String`. -/
def pyReplace (s pattern repl : String) : String :=
  ⟨replaceAllAux pattern.data repl.data s.data.length s.data⟩

/-- Python `'_'.join(l)`. -/
def joinUnderscore : List String → String
  | [] => ""
  | [s] => s
  | s :: rest => s ++ "_" ++ joinUnderscore rest

/-- Embedding of the `output_id` computation (predict_imt.py line 167):
`'_'.join([key.replace('imt_', '') for key, value in target_columns.items()
if value['predict']])`. -/
def output_id (target_columns : List (String × TargetSpec)) : String :=
  joinUnderscore ((target_columns.filter (fun kv => kv.2.predict)).map
    (fun kv => pyReplace kv.1 "imt_" ""))

/-- Embedding of the `experiment_id` computation (predict_imt.py line 168):
`'{}_{}_{}_{}_{}'.format(prefix, database, input_type, input_shape[0],
output_id)`. -/
def experiment_id (prefixStr database input_type : String) (input_shape : ℕ × ℕ)
    (target_columns : List (String × TargetSpec)) : String :=
  prefixStr ++ "_" ++ database ++ "_" ++ input_type ++ "_" ++ toString input_shape.1
    ++ "_" ++ output_id target_columns

/-- Formalisation of the claim's wording (for the refutation only): a target
name "with its `imt_` prefix stripped" — removal happens only when `imt_` is
a prefix of the name, and only once. -/
def stripImtPre (k : String) : String :=
  if ("imt_".data).isPrefixOf k.data then ⟨k.data.drop 4⟩ else k

/-- Experiment id as the claim words it: enabled target names each with the
`imt_` prefix stripped. -/
def experiment_id_prefixStripped (prefixStr database input_type : String)
    (input_shape : ℕ × ℕ) (target_columns : List (String × TargetSpec)) : String :=
  prefixStr ++ "_" ++ database ++ "_" ++ input_type ++ "_" ++ toString input_shape.1
    ++ "_" ++ joinUnderscore ((target_columns.filter (fun kv => kv.2.predict)).map
          (fun kv => stripImtPre kv.1))

/-- C2 counterexample: for the enabled target name `plaque_imt_x` the code
removes the inner occurrence of `imt_` (Python `str.replace` removes every
occurrence), so the id differs from the claimed prefix-stripped form. -/
theorem experiment_id_counterexample :
    experiment_id "exp" "CCA" "img" (512, 512)
        [("plaque_imt_x", ⟨true, "weighted_bce", 1⟩)]
        = "exp_CCA_img_512_plaque_x" ∧
    experiment_id_prefixStripped "exp" "CCA" "img" (512, 512)
        [("plaque_imt_x", ⟨true, "weighted_bce", 1⟩)]
        = "exp_CCA_img_512_plaque_imt_x" ∧
    ("exp_CCA_img_512_plaque_x" : String) ≠ "exp_CCA_img_512_plaque_imt_x" := by
  refine ⟨by decide, by decide, by decide⟩

/-- C2 (amended): the experiment id is prefix, database, input type and the
first component of the input shape joined by underscores, followed by the
enabled target names in declaration order, each with every occurrence of the
substring `imt_` removed, joined by underscores; in particular for targets
`imt_max` and `plaque` both enabled, database `CCA`, input type `img`, shape
`(512, 512)` and prefix `exp`, the id is `exp_CCA_img_512_max_plaque`. -/
theorem experiment_id_format (prefixStr database input_type : String)
    (input_shape : ℕ × ℕ) (target_columns : List (String × TargetSpec)) :
    experiment_id prefixStr database input_type input_shape target_columns
        = prefixStr ++ "_" ++ database ++ "_" ++ input_type ++ "_"
            ++ toString input_shape.1 ++ "_"
            ++ joinUnderscore ((target_columns.filter (fun kv => kv.2.predict)).map
                  (fun kv => pyReplace kv.1 "imt_" "")) ∧
    experiment_id "exp" "CCA" "img" (512, 512)
        [("imt_max", ⟨true, "mse", 1⟩), ("plaque", ⟨true, "weighted_bce", 1/2⟩)]
        = "exp_CCA_img_512_max_plaque" :=
  ⟨rfl, by decide⟩

/-- Grayscale image as loaded by `cv2.imread(path, cv2.IMREAD_GRAYSCALE)`:
a matrix of bytes. -/
abbrev Gray := List (List (Fin 256))

/-- Real-valued matrix (a normalized single-channel image). -/
abbrev Mat := List (List ℚ)

/-- Division of every pixel by 255 (`img / 255.`). -/
def normalize255 (g : Gray) : Mat :=
  g.map (fun row => row.map (fun px => (px.val : ℚ) / 255))

/-- The tensor handed to the network by `nn_predict_imt`: either one
single-channel matrix or the depth-stack (`np.dstack`) of the image and the
mask, in that channel order. -/
inductive NNInput where
  | single (m : Mat)
  | stacked (img mask : Mat)

/-- Loading of one input (predict_imt.py lines 47-48 and 51-52):
`cv2.resize(cv2.imread(path, cv2.IMREAD_GRAYSCALE) / 255., input_shape)`.
`imread` and `resize` are the abstract framework primitives. -/
def loadGrayNorm (imread : String → Gray) (resize : Mat → ℕ × ℕ → Mat)
    (input_shape : ℕ × ℕ) (path : String) : Mat :=
  resize (normalize255 (imread path)) input_shape

/-- Embedding of the input construction of `nn_predict_imt` (predict_imt.py
lines 46-55): `input_data` is assigned from the image if given, overwritten by
the mask if given, and overwritten by `np.dstack((img, mask))` when both are
given; with neither path the Python local stays unbound (`none`). -/
def nnInputData (imread : String → Gray) (resize : Mat → ℕ × ℕ → Mat)
    (input_shape : ℕ × ℕ) (img_path mask_path : Option String) : Option NNInput :=
  let afterImg : Option NNInput :=
    match img_path with
    | some p => some (NNInput.single (loadGrayNorm imread resize input_shape p))
    | none => none
  let afterMask : Option NNInput :=
    match mask_path with
    | some p => some (NNInput.single (loadGrayNorm imread resize input_shape p))
    | none => afterImg
  match img_path, mask_path with
  | some ip, some mp =>
      some (NNInput.stacked (loadGrayNorm imread resize input_shape ip)
        (loadGrayNorm imread resize input_shape mp))
  | _, _ => afterMask

/-- Embedding of the result-unpacking loop of `nn_predict_imt` (predict_imt.py
lines 58-64): walk the target columns in declaration order, and for each one
marked `predict` bind its name to `np.squeeze(prediction[count])`, stepping
`count`; an out-of-range head index is Python's `IndexError` (`none`). -/
def nnUnpack {Raw Out : Type} (squeeze : Raw → Out) :
    List (String × TargetSpec) → List Raw → ℕ → Option (List (String × Out))
  | [], _, _ => some []
  | (k, v) :: rest, prediction, count =>
    if v.predict then
      match prediction[count]? with
      | some h =>
          (nnUnpack squeeze rest prediction (count + 1)).map
            (fun r => (k, squeeze h) :: r)
      | none => none
    else nnUnpack squeeze rest prediction count

/-- Embedding of `nn_predict_imt` (predict_imt.py lines 36-64): build the
input tensor, run the model on the singleton batch
(`model.predict(np.expand_dims(input_data, axis=0))`), and unpack the heads. -/
def nn_predict_imt {Raw Out : Type} (imread : String → Gray)
    (resize : Mat → ℕ × ℕ → Mat) (model : List NNInput → List Raw)
    (squeeze : Raw → Out) (img_path mask_path : Option String)
    (input_shape : ℕ × ℕ) (target_columns : List (String × TargetSpec)) :
    Option (List (String × Out)) :=
  match nnInputData imread resize input_shape img_path mask_path with
  | none => none
  | some input_data => nnUnpack squeeze target_columns (model [input_data]) 0

lemma enabledNames_cons_true (k : String) (v : TargetSpec) (rest : List (String × TargetSpec))
    (hp : v.predict = true) :
    enabledNames ((k, v) :: rest) = k :: enabledNames rest := by
  simp [enabledNames, List.filter_cons, hp]

lemma enabledNames_cons_false (k : String) (v : TargetSpec) (rest : List (String × TargetSpec))
    (hp : v.predict = false) :
    enabledNames ((k, v) :: rest) = enabledNames rest := by
  simp [enabledNames, List.filter_cons, hp]

lemma nnUnpack_sound {Raw Out : Type} (squeeze : Raw → Out)
    (cols : List (String × TargetSpec)) :
    ∀ (prediction : List Raw) (count : ℕ),
      count + enabledCount cols ≤ prediction.length →
      nnUnpack squeeze cols prediction count
        = some (List.zip (enabledNames cols)
            (((prediction.drop count).take (enabledCount cols)).map squeeze)) := by
  induction cols with
  | nil =>
    intro prediction count _
    simp [nnUnpack, enabledCount, enabledNames]
  | cons kv rest ih =>
    obtain ⟨k, v⟩ := kv
    intro prediction count h
    by_cases hp : v.predict = true
    · have hnames := enabledNames_cons_true k v rest hp
      have hcount : enabledCount ((k, v) :: rest) = enabledCount rest + 1 := by
        simp [enabledCount, hnames]
      rw [hcount] at h
      have hlt : count < prediction.length := by omega
      have hget : prediction[count]? = some prediction[count] :=
        List.getElem?_eq_getElem hlt
      simp only [nnUnpack, hp, if_true, hget]
      rw [ih prediction (count + 1) (by omega)]
      simp only [Option.map_some']
      rw [hnames, hcount, List.drop_eq_getElem_cons hlt, List.take_succ_cons,
        List.map_cons, List.zip_cons_cons]
    · have hp' : v.predict = false := by simpa using hp
      have hnames := enabledNames_cons_false k v rest hp'
      have hcount : enabledCount ((k, v) :: rest) = enabledCount rest := by
        simp [enabledCount, hnames]
      rw [hcount] at h
      simp only [nnUnpack, hp', Bool.false_eq_true, if_false]
      rw [ih prediction count h, hnames, hcount]

/-- C3: each provided path is loaded as a grayscale array, divided by 255
(landing in `[0, 1]`) and resized; exactly one path gives a single-channel
input, both paths give the depth-stack of image then mask; the model then runs
on a batch of exactly one example. -/
theorem nn_predict_input_construction {Raw Out : Type} (imread : String → Gray)
    (resize : Mat → ℕ × ℕ → Mat) (model : List NNInput → List Raw)
    (squeeze : Raw → Out) (input_shape : ℕ × ℕ)
    (target_columns : List (String × TargetSpec)) (p q : String) :
    nnInputData imread resize input_shape (some p) none
        = some (NNInput.single (resize (normalize255 (imread p)) input_shape)) ∧
    nnInputData imread resize input_shape none (some q)
        = some (NNInput.single (resize (normalize255 (imread q)) input_shape)) ∧
    nnInputData imread resize input_shape (some p) (some q)
        = some (NNInput.stacked (resize (normalize255 (imread p)) input_shape)
            (resize (normalize255 (imread q)) input_shape)) ∧
    (∀ row ∈ normalize255 (imread p), ∀ x ∈ row, 0 ≤ x ∧ x ≤ 1) ∧
    (∀ img_path mask_path input_data,
        nnInputData imread resize input_shape img_path mask_path = some input_data →
        nn_predict_imt imread resize model squeeze img_path mask_path input_shape
            target_columns
          = nnUnpack squeeze target_columns (model [input_data]) 0) := by
  refine ⟨rfl, rfl, rfl, ?_, ?_⟩
  · intro row hrow x hx
    simp only [normalize255, List.mem_map] at hrow
    obtain ⟨r, _, hr⟩ := hrow
    subst hr
    simp only [List.mem_map] at hx
    obtain ⟨px, _, hpx⟩ := hx
    subst hpx
    constructor
    · positivity
    · rw [div_le_one (by norm_num)]
      have hb : (px : ℕ) ≤ 255 := Nat.lt_succ_iff.mp px.isLt
      exact_mod_cast hb
  · intro img_path mask_path input_data hin
    simp only [nn_predict_imt, hin]

theorem nn_predict_input_construction_witness :
    nnInputData (fun _ => ([] : Gray)) (fun _ _ => ([] : Mat)) (2, 2) (some "a") (some "b")
        = some (NNInput.stacked [] []) ∧
    nn_predict_imt (fun _ => ([] : Gray)) (fun _ _ => ([] : Mat))
        (fun _ => ([3] : List ℕ)) (fun r => r) (some "a") none (2, 2)
        [("imt_max", ⟨true, "mse", 1⟩)]
      = nnUnpack (fun r : ℕ => r) [("imt_max", ⟨true, "mse", 1⟩)] [3] 0 :=
  ⟨(nn_predict_input_construction (fun _ => ([] : Gray)) (fun _ _ => ([] : Mat))
      (fun _ => ([3] : List ℕ)) (fun r => r) (2, 2) [("imt_max", ⟨true, "mse", 1⟩)]
      "a" "b").2.2.1,
   (nn_predict_input_construction (fun _ => ([] : Gray)) (fun _ _ => ([] : Mat))
      (fun _ => ([3] : List ℕ)) (fun r => r) (2, 2) [("imt_max", ⟨true, "mse", 1⟩)]
      "a" "b").2.2.2.2 (some "a") none (NNInput.single []) rfl⟩

/-- C4: whenever the model provides at least as many heads as there are
enabled targets, the returned mapping's keys are exactly the enabled target
names in declaration order, the value at the k-th such name is the squeezed
k-th model head, and a name all of whose entries are disabled never appears. -/
theorem nn_predict_imt_heads {Raw Out : Type} (imread : String → Gray)
    (resize : Mat → ℕ × ℕ → Mat) (model : List NNInput → List Raw)
    (squeeze : Raw → Out) (img_path mask_path : Option String)
    (input_shape : ℕ × ℕ) (target_columns : List (String × TargetSpec))
    (input_data : NNInput)
    (hin : nnInputData imread resize input_shape img_path mask_path = some input_data)
    (hheads : enabledCount target_columns ≤ (model [input_data]).length) :
    ∃ l, nn_predict_imt imread resize model squeeze img_path mask_path input_shape
          target_columns = some l ∧
      l.map Prod.fst = enabledNames target_columns ∧
      l.map Prod.snd
        = ((model [input_data]).take (enabledCount target_columns)).map squeeze ∧
      (∀ name, (∀ spec, (name, spec) ∈ target_columns → spec.predict = false) →
          name ∉ l.map Prod.fst) := by
  have hrun : nn_predict_imt imread resize model squeeze img_path mask_path input_shape
      target_columns = nnUnpack squeeze target_columns (model [input_data]) 0 := by
    simp only [nn_predict_imt, hin]
  have hunpack := nnUnpack_sound squeeze target_columns (model [input_data]) 0
    (by omega)
  rw [List.drop_zero] at hunpack
  set heads := ((model [input_data]).take (enabledCount target_columns)).map squeeze
    with hheadsdef
  have hlen : (enabledNames target_columns).length = heads.length := by
    have h2 : (enabledNames target_columns).length ≤ (model [input_data]).length := hheads
    rw [hheadsdef, List.length_map, List.length_take, enabledCount]
    exact (min_eq_left h2).symm
  refine ⟨List.zip (enabledNames target_columns) heads, by rw [hrun, hunpack], ?_, ?_, ?_⟩
  · exact List.map_fst_zip _ _ (le_of_eq hlen)
  · exact List.map_snd_zip _ _ (ge_of_eq hlen)
  · intro name hall hmem
    rw [List.map_fst_zip _ _ (le_of_eq hlen)] at hmem
    simp only [enabledNames, List.mem_map, List.mem_filter] at hmem
    obtain ⟨⟨k, spec⟩, ⟨hk, hpred⟩, hfst⟩ := hmem
    subst hfst
    have := hall spec hk
    rw [this] at hpred
    exact Bool.noConfusion hpred

theorem nn_predict_imt_heads_witness :
    (nnInputData (fun _ => ([] : Gray)) (fun _ _ => ([] : Mat)) (2, 2) (some "a") none
        = some (NNInput.single []) ∧
      enabledCount [("imt_max", ⟨true, "mse", 1⟩), ("aux", ⟨false, "mse", 1⟩),
          ("plaque", ⟨true, "weighted_bce", 1⟩)]
        ≤ ([10, 20] : List ℕ).length) ∧
    (∃ l, nn_predict_imt (fun _ => ([] : Gray)) (fun _ _ => ([] : Mat))
          (fun _ => ([10, 20] : List ℕ)) (fun r => r) (some "a") none (2, 2)
          [("imt_max", ⟨true, "mse", 1⟩), ("aux", ⟨false, "mse", 1⟩),
            ("plaque", ⟨true, "weighted_bce", 1⟩)] = some l ∧
      l.map Prod.fst = enabledNames [("imt_max", ⟨true, "mse", 1⟩),
          ("aux", ⟨false, "mse", 1⟩), ("plaque", ⟨true, "weighted_bce", 1⟩)] ∧
      l.map Prod.snd
        = (([10, 20] : List ℕ).take (enabledCount [("imt_max", ⟨true, "mse", 1⟩),
            ("aux", ⟨false, "mse", 1⟩), ("plaque", ⟨true, "weighted_bce", 1⟩)])).map
            (fun r => r) ∧
      (∀ name, (∀ spec, (name, spec) ∈ ([("imt_max", ⟨true, "mse", 1⟩),
            ("aux", ⟨false, "mse", 1⟩), ("plaque", ⟨true, "weighted_bce", 1⟩)] :
            List (String × TargetSpec)) →
            spec.predict = false) →
          name ∉ l.map Prod.fst)) :=
  ⟨⟨rfl, by decide⟩,
    nn_predict_imt_heads (fun _ => ([] : Gray)) (fun _ _ => ([] : Mat))
      (fun _ => ([10, 20] : List ℕ)) (fun r => r) (some "a") none (2, 2)
      [("imt_max", ⟨true, "mse", 1⟩), ("aux", ⟨false, "mse", 1⟩),
        ("plaque", ⟨true, "weighted_bce", 1⟩)] (NNInput.single []) rfl (by decide)⟩

/-- C7: the model input built from only an image path equals the one built
from only a mask path at the same path string, and hence the two calls of
`nn_predict_imt` return the same prediction mapping. -/
theorem nn_predict_modality_agnostic {Raw Out : Type} (imread : String → Gray)
    (resize : Mat → ℕ × ℕ → Mat) (model : List NNInput → List Raw)
    (squeeze : Raw → Out) (input_shape : ℕ × ℕ)
    (target_columns : List (String × TargetSpec)) (p : String) :
    nnInputData imread resize input_shape (some p) none
        = nnInputData imread resize input_shape none (some p) ∧
    nn_predict_imt imread resize model squeeze (some p) none input_shape target_columns
        = nn_predict_imt imread resize model squeeze none (some p) input_shape
            target_columns :=
  ⟨rfl, rfl⟩

/-- One row of the dataset table: its index value, the two path columns read
by `predict_complete_dataframe`, and all remaining pre-existing cells
(abstracted as `extra`). -/
structure Row (α : Type) where
  idx : String
  complete_path : String
  mask_path : String
  extra : α
deriving Repr, DecidableEq

/-- The dataframe returned by `predict_complete_dataframe`: the pre-existing
rows, plus the added `nn_prediction` column (one raw prediction mapping per
row) and the added `predicted_<name>` columns in insertion order.  The Python
function mutates the caller's dataframe in place and returns that same
object; in this state-passing embedding the single value below is both the
caller's dataframe after the call and the returned one. -/
structure PredictedFrame (α Out : Type) where
  rows : List (Row α)
  nn_prediction : List (Option (List (String × Out)))
  predicted : List (String × List (Option Out))

/-- Embedding of `predict_complete_dataframe` (predict_imt.py lines 99-125):
row by row, in order, select the input paths from `input_column` and call
`nn_predict_imt`; store the collected mappings as the `nn_prediction` column;
then for each target marked `predict` add a `predicted_<name>` column holding
that component of each row's mapping (`x[key]`, an association lookup). -/
def predict_complete_dataframe {α Raw Out : Type} (imread : String → Gray)
    (resize : Mat → ℕ × ℕ → Mat) (model : List NNInput → List Raw)
    (squeeze : Raw → Out) (rows : List (Row α)) (input_column : String)
    (target_columns : List (String × TargetSpec)) (input_shape : ℕ × ℕ) :
    PredictedFrame α Out :=
  let nn_predictions := rows.map (fun row =>
    nn_predict_imt imread resize model squeeze
      (pathSelection input_column row.complete_path row.mask_path).1
      (pathSelection input_column row.complete_path row.mask_path).2
      input_shape target_columns)
  { rows := rows
    nn_prediction := nn_predictions
    predicted := (target_columns.filter (fun kv => kv.2.predict)).map (fun kv =>
      ("predicted_" ++ kv.1,
        nn_predictions.map (fun x => x.bind (fun m => m.lookup kv.1)))) }

/-- C8: `predict_complete_dataframe` calls the single-sample predictor once
per row in row order, the added `predicted_<name>` columns are exactly one per
enabled target in declaration order, and the value in row `r` of
`predicted_<name>` is the component keyed `name` of row `r`'s prediction
mapping. -/
theorem predict_complete_dataframe_columns {α Raw Out : Type} (imread : String → Gray)
    (resize : Mat → ℕ × ℕ → Mat) (model : List NNInput → List Raw)
    (squeeze : Raw → Out) (rows : List (Row α)) (input_column : String)
    (target_columns : List (String × TargetSpec)) (input_shape : ℕ × ℕ) :
    (predict_complete_dataframe imread resize model squeeze rows input_column
        target_columns input_shape).nn_prediction.length = rows.length ∧
    (∀ (r : ℕ) (row : Row α), rows[r]? = some row →
        (predict_complete_dataframe imread resize model squeeze rows input_column
            target_columns input_shape).nn_prediction[r]?
          = some (nn_predict_imt imread resize model squeeze
              (pathSelection input_column row.complete_path row.mask_path).1
              (pathSelection input_column row.complete_path row.mask_path).2
              input_shape target_columns)) ∧
    (predict_complete_dataframe imread resize model squeeze rows input_column
        target_columns input_shape).predicted.length = enabledCount target_columns ∧
    (predict_complete_dataframe imread resize model squeeze rows input_column
        target_columns input_shape).predicted.map Prod.fst
      = (enabledNames target_columns).map (fun name => "predicted_" ++ name) ∧
    (∀ (j : ℕ) (name : String) (spec : TargetSpec),
        (target_columns.filter (fun kv => kv.2.predict))[j]? = some (name, spec) →
        ∃ colvals : List (Option Out),
          (predict_complete_dataframe imread resize model squeeze rows input_column
              target_columns input_shape).predicted[j]?
            = some ("predicted_" ++ name, colvals) ∧
          ∀ r : ℕ, colvals[r]?
            = ((predict_complete_dataframe imread resize model squeeze rows
                input_column target_columns input_shape).nn_prediction[r]?).map
                (fun x => x.bind (fun m => m.lookup name))) := by
  refine ⟨?_, ?_, ?_, ?_, ?_⟩
  · simp [predict_complete_dataframe]
  · intro r row h
    simp [predict_complete_dataframe, List.getElem?_map, h]
  · simp [predict_complete_dataframe, enabledCount, enabledNames]
  · simp [predict_complete_dataframe, enabledNames, List.map_map, Function.comp]
  · intro j name spec h
    refine ⟨(rows.map (fun row =>
      nn_predict_imt imread resize model squeeze
        (pathSelection input_column row.complete_path row.mask_path).1
        (pathSelection input_column row.complete_path row.mask_path).2
        input_shape target_columns)).map (fun x => x.bind (fun m => m.lookup name)),
      ?_, ?_⟩
    · simp [predict_complete_dataframe, List.getElem?_map, h]
    · intro r
      simp [predict_complete_dataframe, List.getElem?_map]

theorem predict_complete_dataframe_columns_witness :
    (([⟨"i", "c", "m", 0⟩] : List (Row ℕ))[0]? = some ⟨"i", "c", "m", 0⟩ ∧
      (([("imt_max", ⟨true, "mse", 1⟩)] : List (String × TargetSpec)).filter
          (fun kv => kv.2.predict))[0]? = some ("imt_max", ⟨true, "mse", 1⟩)) ∧
    ((predict_complete_dataframe (fun _ => ([] : Gray)) (fun _ _ => ([] : Mat))
        (fun _ => ([5] : List ℕ)) (fun r => r) [⟨"i", "c", "m", 0⟩] "complete_path"
        [("imt_max", ⟨true, "mse", 1⟩)] (2, 2)).nn_prediction[0]?
      = some (nn_predict_imt (fun _ => ([] : Gray)) (fun _ _ => ([] : Mat))
          (fun _ => ([5] : List ℕ)) (fun r => r)
          (pathSelection "complete_path" "c" "m").1
          (pathSelection "complete_path" "c" "m").2 (2, 2)
          [("imt_max", ⟨true, "mse", 1⟩)]) ∧
      ∃ colvals : List (Option ℕ),
        (predict_complete_dataframe (fun _ => ([] : Gray)) (fun _ _ => ([] : Mat))
            (fun _ => ([5] : List ℕ)) (fun r => r) [⟨"i", "c", "m", 0⟩] "complete_path"
            [("imt_max", ⟨true, "mse", 1⟩)] (2, 2)).predicted[0]?
          = some ("predicted_" ++ "imt_max", colvals) ∧
        ∀ r : ℕ, colvals[r]?
          = ((predict_complete_dataframe (fun _ => ([] : Gray)) (fun _ _ => ([] : Mat))
              (fun _ => ([5] : List ℕ)) (fun r => r) [⟨"i", "c", "m", 0⟩] "complete_path"
              [("imt_max", ⟨true, "mse", 1⟩)] (2, 2)).nn_prediction[r]?).map
              (fun x => x.bind (fun m => m.lookup "imt_max"))) :=
  ⟨⟨rfl, rfl⟩,
    (predict_complete_dataframe_columns (fun _ => ([] : Gray)) (fun _ _ => ([] : Mat))
      (fun _ => ([5] : List ℕ)) (fun r => r) [⟨"i", "c", "m", 0⟩] "complete_path"
      [("imt_max", ⟨true, "mse", 1⟩)] (2, 2)).2.1 0 ⟨"i", "c", "m", 0⟩ rfl,
    (predict_complete_dataframe_columns (fun _ => ([] : Gray)) (fun _ _ => ([] : Mat))
      (fun _ => ([5] : List ℕ)) (fun r => r) [⟨"i", "c", "m", 0⟩] "complete_path"
      [("imt_max", ⟨true, "mse", 1⟩)] (2, 2)).2.2.2.2 0 "imt_max" ⟨true, "mse", 1⟩ rfl⟩

/-- C10: the frame effect of `predict_complete_dataframe` — the pre-existing
rows (index values, path columns and all other cells) are returned unchanged,
and beyond the documented `predicted_<name>` columns the result carries an
`nn_prediction` column holding each row's raw prediction mapping.  In-place
mutation plus returning the same object is modelled by the function producing
the one updated frame that the caller's reference and the return value share. -/
theorem predict_complete_dataframe_frame {α Raw Out : Type} (imread : String → Gray)
    (resize : Mat → ℕ × ℕ → Mat) (model : List NNInput → List Raw)
    (squeeze : Raw → Out) (rows : List (Row α)) (input_column : String)
    (target_columns : List (String × TargetSpec)) (input_shape : ℕ × ℕ) :
    (predict_complete_dataframe imread resize model squeeze rows input_column
        target_columns input_shape).rows = rows ∧
    (predict_complete_dataframe imread resize model squeeze rows input_column
        target_columns input_shape).nn_prediction
      = rows.map (fun row =>
          nn_predict_imt imread resize model squeeze
            (pathSelection input_column row.complete_path row.mask_path).1
            (pathSelection input_column row.complete_path row.mask_path).2
            input_shape target_columns) :=
  ⟨rfl, rfl⟩

/-- One `(x_batch, y_batch)` pair yielded by the data generator: the batch of
model inputs and the list of output heads, each head a list over the batch
index. -/
structure GenBatch (X : Type) where
  x_batch : List X
  y_batch : List (List ℚ)

/-- Embedding of the ground-truth tuple of `plot_predictions` (predict_imt.py
lines 78-81): three heads when `config.PREDICT_PLAQUE`, two otherwise. -/
def gtOf (predict_plaque : Bool) (y_batch : List (List ℚ)) (i : ℕ) : List ℚ :=
  if predict_plaque then
    [(y_batch.getD 0 []).getD i 0, (y_batch.getD 1 []).getD i 0,
      (y_batch.getD 2 []).getD i 0]
  else
    [(y_batch.getD 0 []).getD i 0, (y_batch.getD 1 []).getD i 0]

/-- Embedding of the inner loop of `plot_predictions` (predict_imt.py lines
77-91): for each `i in range(generator.batch_size)` compute
`error = gt - pred` where `pred` is the squeezed model output on example `i`
(the model parameter already yields the squeezed head values). -/
def processBatch {X : Type} [Inhabited X] (predict_plaque : Bool)
    (model : X → List ℚ) (batch_size : ℕ) (b : GenBatch X) : List (List ℚ) :=
  (List.range batch_size).map (fun i =>
    List.zipWith (fun g p => g - p) (gtOf predict_plaque b.y_batch i)
      (model (b.x_batch.getD i default)))

/-- Embedding of the outer loop of `plot_predictions` (predict_imt.py lines
76-95): consume a batch, accumulate its per-example errors, run
`loops -= 1; if not loops: break`.  `loops` is a Python integer (`ℤ`); the
generator is modelled by the (finite) list of batches it yields, so the
embedding also terminates when the list is exhausted, which in the source is
the `for` loop ending on generator exhaustion.  Returns the accumulated
errors and the number of batches consumed. -/
def plot_predictions_loop {X : Type} [Inhabited X] (predict_plaque : Bool)
    (model : X → List ℚ) (batch_size : ℕ) :
    ℤ → List (GenBatch X) → List (List ℚ) × ℕ
  | _, [] => ([], 0)
  | loops, b :: rest =>
    if loops - 1 = 0 then (processBatch predict_plaque model batch_size b, 1)
    else
      let r := plot_predictions_loop predict_plaque model batch_size (loops - 1) rest
      (processBatch predict_plaque model batch_size b ++ r.1, r.2 + 1)

/-- Elementwise mean of the accumulated error vectors, as printed by
`print('Mean error: {}'.format(sum(errors) / len(errors)))`; an empty error
list is Python's `ZeroDivisionError` (`none`). -/
def meanError (errors : List (List ℚ)) : Option (List ℚ) :=
  match errors with
  | [] => none
  | e :: rest =>
    some ((rest.foldl (fun acc v => List.zipWith (fun a b => a + b) acc v) e).map
      (fun s => s / (rest.length + 1 : ℕ)))

/-- Observable outcome of `plot_predictions`: the accumulated errors, the
number of batches consumed from the generator, and the printed mean. -/
structure PlotRun where
  errors : List (List ℚ)
  consumed : ℕ
  mean_printed : Option (List ℚ)

/-- Embedding of `plot_predictions` (predict_imt.py lines 67-96). -/
def plot_predictions {X : Type} [Inhabited X] (predict_plaque : Bool)
    (model : X → List ℚ) (batch_size : ℕ) (loops : ℤ)
    (batches : List (GenBatch X)) : PlotRun :=
  let r := plot_predictions_loop predict_plaque model batch_size loops batches
  { errors := r.1, consumed := r.2, mean_printed := meanError r.1 }

lemma plot_loop_eq_take {X : Type} [Inhabited X] (pp : Bool) (model : X → List ℚ)
    (bs : ℕ) :
    ∀ (batches : List (GenBatch X)) (n : ℕ), 1 ≤ n → n ≤ batches.length →
      plot_predictions_loop pp model bs (n : ℤ) batches
        = (((batches.take n).map (processBatch pp model bs)).join, n) := by
  intro batches
  induction batches with
  | nil =>
    intro n h1 h2
    simp at h2
    omega
  | cons b rest ih =>
    intro n h1 h2
    rcases n with _ | m
    · omega
    · by_cases hm : m = 0
      · subst hm
        have hc : (((0 + 1 : ℕ)) : ℤ) - 1 = 0 := by norm_num
        simp [plot_predictions_loop, hc]
      · have hm1 : 1 ≤ m := Nat.one_le_iff_ne_zero.mpr hm
        have hc : (((m + 1 : ℕ)) : ℤ) - 1 ≠ 0 := by
          push_cast
          omega
        have hcast : (((m + 1 : ℕ)) : ℤ) - 1 = ((m : ℕ) : ℤ) := by
          push_cast
          ring
        have h2' : m ≤ rest.length := by
          simp at h2
          omega
        simp only [plot_predictions_loop, if_neg hc]
        rw [hcast, ih m hm1 h2']
        simp [List.take_succ_cons]

/-- C9 counterexample: with loop bound `0` and a generator yielding three
batches, the decrement-then-test (`loops -= 1; if not loops: break`) never
reaches zero, so all three batches are consumed rather than zero. -/
theorem plot_predictions_counterexample :
    (plot_predictions false (fun _ : Unit => [0]) 1 (0 : ℤ)
        [⟨[()], [[0], [0]]⟩, ⟨[()], [[0], [0]]⟩, ⟨[()], [[0], [0]]⟩]).consumed = 3 ∧
    (3 : ℕ) ≠ 0 :=
  ⟨rfl, by decide⟩

/-- C9 (amended): for every loop bound `loops ≥ 1`, when the generator yields
at least `loops` batches, `plot_predictions` consumes exactly `loops` batches,
accumulates `batch_size` per-example errors for each consumed batch, and
terminates by printing the mean of the accumulated errors; for `loops = 0` the
decrement-then-test break never fires and the loop instead consumes the whole
generator. -/
theorem plot_predictions_consumes {X : Type} [Inhabited X] (pp : Bool)
    (model : X → List ℚ) (bs : ℕ) (n : ℕ) (batches : List (GenBatch X))
    (h1 : 1 ≤ n) (h2 : n ≤ batches.length) :
    (plot_predictions pp model bs (n : ℤ) batches).consumed = n ∧
    (plot_predictions pp model bs (n : ℤ) batches).errors
        = ((batches.take n).map (processBatch pp model bs)).join ∧
    (plot_predictions pp model bs (n : ℤ) batches).errors.length = n * bs ∧
    (plot_predictions pp model bs (n : ℤ) batches).mean_printed
        = meanError (((batches.take n).map (processBatch pp model bs)).join) := by
  have key := plot_loop_eq_take pp model bs batches n h1 h2
  refine ⟨?_, ?_, ?_, ?_⟩
  · simp [plot_predictions, key]
  · simp [plot_predictions, key]
  · simp only [plot_predictions, key]
    rw [List.length_join, List.map_map]
    have hconst : (List.length ∘ processBatch pp model bs) = fun _ => bs := by
      funext bt
      simp [processBatch]
    rw [hconst, List.map_const', List.length_take, min_eq_left h2,
      List.sum_replicate, smul_eq_mul]
  · simp [plot_predictions, key]

theorem plot_predictions_consumes_witness :
    ((1 : ℕ) ≤ 1 ∧ (1 : ℕ) ≤ ([⟨[()], [[0], [0]]⟩] : List (GenBatch Unit)).length) ∧
    ((plot_predictions false (fun _ : Unit => [0]) 1 ((1 : ℕ) : ℤ)
          [⟨[()], [[0], [0]]⟩]).consumed = 1 ∧
      (plot_predictions false (fun _ : Unit => [0]) 1 ((1 : ℕ) : ℤ)
          [⟨[()], [[0], [0]]⟩]).errors
        = ((([⟨[()], [[0], [0]]⟩] : List (GenBatch Unit)).take 1).map
            (processBatch false (fun _ : Unit => [0]) 1)).join ∧
      (plot_predictions false (fun _ : Unit => [0]) 1 ((1 : ℕ) : ℤ)
          [⟨[()], [[0], [0]]⟩]).errors.length = 1 * 1 ∧
      (plot_predictions false (fun _ : Unit => [0]) 1 ((1 : ℕ) : ℤ)
          [⟨[()], [[0], [0]]⟩]).mean_printed
        = meanError (((([⟨[()], [[0], [0]]⟩] : List (GenBatch Unit)).take 1).map
            (processBatch false (fun _ : Unit => [0]) 1)).join)) :=
  ⟨⟨le_refl 1, by decide⟩,
    plot_predictions_consumes false (fun _ : Unit => [0]) 1 1 [⟨[()], [[0], [0]]⟩]
      (le_refl 1) (by decide)⟩
